import Mathlib

/-!
Shallow embedding of the scorpiui reactive core (src/scorpiui/core/state.py,
src/scorpiui/core/events.py, src/scorpiui/core/renderer.py).

Python dictionaries are modelled as insertion-ordered association lists with
string keys; JSON-decoded values as the inductive `Json`; raised exceptions as
`Except` results or explicit error flags.  Transport emission (`flask_socketio.emit`)
is modelled by returning the list of outbound messages instead of performing IO.
-/

namespace Scorpi

/-- JSON-decoded Python values as delivered by the websocket transport.
Python `None` is `Json.null`. -/
inductive Json where
  | null
  | bool (b : Bool)
  | num (n : Int)
  | str (s : String)
  | arr (elems : List Json)
  | obj (fields : List (String × Json))

/-- First-match association-list lookup, the model of Python `dict.get` on an
insertion-ordered dict with unique keys (`none` models `get` returning `None`). -/
def alookup {β : Type} : List (String × β) → String → Option β
  | [], _ => none
  | (k, v) :: rest, key => if k = key then some v else alookup rest key

/-- Python dict assignment `d[k] = v`: replaces the value at an existing key in
place, otherwise appends the new binding at the end (insertion order). -/
def dictSet {β : Type} (l : List (String × β)) (k : String) (v : β) : List (String × β) :=
  if (alookup l k).isSome then
    l.map (fun p => if p.1 = k then (k, v) else p)
  else
    l ++ [(k, v)]

/-- Python truthiness of a JSON value (`if not x` in the source). -/
def Json.falsy : Json → Bool
  | .null => true
  | .bool b => !b
  | .num n => decide (n = 0)
  | .str s => decide (s = "")
  | .arr elems => elems.isEmpty
  | .obj fields => fields.isEmpty

/-- The `EventData` dataclass of src/scorpiui/core/events.py with its field
defaults (`value=None`, `event_type="change"`, `target_id=None`, `key=None`,
`meta=None`).  Fields hold raw JSON values exactly as `dict.get` returns them. -/
structure EventData where
  value : Json := .null
  event_type : Json := .str "change"
  target_id : Json := .null
  key : Json := .null
  meta : Json := .null

/-- `EventData.from_dict`: a non-mapping raw value becomes the `value` field with
all other fields at their dataclass defaults; a mapping is read with
`data.get('value')`, `data.get('type', 'change')`, `data.get('target_id')`,
`data.get('key')`, `data.get('meta', {})`. -/
def EventData.fromDict (data : Json) : EventData :=
  match data with
  | .obj fields =>
      { value := (alookup fields "value").getD .null
        event_type := (alookup fields "type").getD (.str "change")
        target_id := (alookup fields "target_id").getD .null
        key := (alookup fields "key").getD .null
        meta := (alookup fields "meta").getD (.obj []) }
  | raw => { value := raw }

/-- An event handler entry: `tag` identifies the handler for reasoning about
which handler was invoked, `run` is its behaviour (`Except.error` models the
handler raising an exception with the given message).  The logging/re-raising
wrapper installed by `register_event` forwards an `EventData` argument and the
result or exception unchanged, so dispatch observes the handler itself. -/
structure Handler where
  tag : Nat
  run : EventData → Except String Json

/-- The module-level `event_handlers` dict of src/scorpiui/core/events.py. -/
abbrev Registry := List (String × Handler)

/-- `register_event`: `event_handlers[event_id] = wrapper` (plain dict
assignment, so re-registering a key replaces the previous handler). -/
def registerEvent (r : Registry) (eventId : String) (h : Handler) : Registry :=
  dictSet r eventId h

/-- Outbound websocket messages emitted during dispatch. -/
inductive Msg where
  | eventResponse (eventId : String) (response : Json)
  | error (message : String)

/-- The data-preparation step of `handle_component_event`: when `data` is a
mapping, `data['target_id'] = event_id` is assigned before
`EventData.from_dict(data)`; a non-mapping `data` is normalized as-is. -/
def normalizeDispatchData (eventId : String) (data : Json) : EventData :=
  EventData.fromDict
    (match data with
     | .obj dfields => Json.obj (dictSet dfields "target_id" (.str eventId))
     | other => other)

/-- `handle_component_event`: reads `event_id` (falsy value: log and return),
looks up the handler (missing: log a warning and return), normalizes
`data` (default `{}`), runs the handler and emits `event_response`, catching
any exception and emitting a single `error` message instead.  The returned
pair is (outbound messages, invocation log of (handler tag, received event)).
A non-mapping argument raises `AttributeError` inside the `try`, which the
`except` turns into one `error` message. -/
def handleComponentEvent (r : Registry) (eventData : Json) :
    List Msg × List (Nat × EventData) :=
  match eventData with
  | .obj fields =>
      let eid := (alookup fields "event_id").getD .null
      if eid.falsy then ([], [])
      else
        match eid with
        | .str eventId =>
            match alookup r eventId with
            | none => ([], [])
            | some h =>
                let ev := normalizeDispatchData eventId ((alookup fields "data").getD (.obj []))
                match h.run ev with
                | .ok resp => ([.eventResponse eventId resp], [(h.tag, ev)])
                | .error m => ([.error m], [(h.tag, ev)])
        | _ => ([], [])
  | _ => ([.error "AttributeError"], [])

/-- `handle_socket_event` of src/scorpiui/core/renderer.py: validates that the
inbound message is a mapping containing an `event_id` key (otherwise emits one
structural `error` message) and then delegates to `handle_component_event`. -/
def handleSocketEvent (r : Registry) (data : Json) :
    List Msg × List (Nat × EventData) :=
  match data with
  | .obj fields =>
      if (alookup fields "event_id").isSome then handleComponentEvent r (.obj fields)
      else ([.error "Invalid event data"], [])
  | _ => ([.error "Invalid event data"], [])

/-- Sequential processing of several inbound messages against the (unmutated)
handler registry, concatenating the outbound messages in order. -/
def processInbound (r : Registry) : List Json → List Msg
  | [] => []
  | m :: rest => (handleSocketEvent r m).1 ++ processInbound r rest

/-- A well-formed inbound message `{event_id: a, data: payload}`. -/
def mkInbound (eventId : String) (payload : Json) : Json :=
  Json.obj [("event_id", .str eventId), ("data", payload)]

/-- Observable effect of a subscriber callback on the notifier it belongs to.
Real callbacks are arbitrary Python functions; what the claims about the
subscriber list depend on is whether a callback mutates that list, so the
embedding draws callbacks from this effect language (`noop` also covers
callbacks that raise: their exception is caught and logged per subscriber). -/
inductive CbAct where
  | noop
  | unsub (sid : String)
deriving DecidableEq

/-- `StateNotifier` of src/scorpiui/core/state.py: the current value and the
insertion-ordered `_subscribers` dict (subscription id to callback). -/
structure StateNotifier (α : Type) where
  state : α
  subscribers : List (String × CbAct)

/-- `StateNotifier.subscribe`: inserts a fresh id (the uuid is passed in as a
parameter here) and returns it. -/
def subscribe {α : Type} (n : StateNotifier α) (sid : String) (cb : CbAct) :
    StateNotifier α × String :=
  ({ n with subscribers := n.subscribers ++ [(sid, cb)] }, sid)

/-- `StateNotifier.unsubscribe`: `if subscriber_id in self._subscribers: del ...`
(a missing id is a silent no-op). -/
def unsubscribe {α : Type} (n : StateNotifier α) (sid : String) : StateNotifier α :=
  if (alookup n.subscribers sid).isSome then
    { n with subscribers := n.subscribers.filter (fun p => decide (p.1 ≠ sid)) }
  else n

/-- Run one subscriber callback for its effect on the notifier. -/
def execCb {α : Type} (n : StateNotifier α) (act : CbAct) : StateNotifier α :=
  match act with
  | .noop => n
  | .unsub sid => unsubscribe n sid

/-- Result of a `_notify_subscribers` pass: the notifier afterwards, the ids
whose callbacks were invoked in order, and whether the `for` loop raised
`RuntimeError` (dictionary changed size during iteration), which propagates
out of `set_state` because the `try` inside the loop only guards the callback
call itself. -/
structure NotifyResult (α : Type) where
  notifier : StateNotifier α
  invoked : List String
  runtimeError : Bool

/-- The live-dict iteration of `for subscriber in self._subscribers.values()`:
before yielding each entry (and before the final stop), CPython compares the
current dict size with the size recorded when iteration began and raises
`RuntimeError` if they differ.  `orig` is the entry sequence at pass start and
`startSize` that recorded size. -/
def notifyLoop {α : Type} : List (String × CbAct) → StateNotifier α → Nat → NotifyResult α
  | [], n, startSize =>
      ⟨n, [], decide (n.subscribers.length ≠ startSize)⟩
  | (sid, act) :: rest, n, startSize =>
      if n.subscribers.length = startSize then
        let r := notifyLoop rest (execCb n act) startSize
        ⟨r.notifier, sid :: r.invoked, r.runtimeError⟩
      else
        ⟨n, [], true⟩

/-- `StateNotifier._notify_subscribers`. -/
def notifySubscribers {α : Type} (n : StateNotifier α) : NotifyResult α :=
  notifyLoop n.subscribers n n.subscribers.length

/-- Result of one `set_state` call: `fired` records whether a notification
round (`_notify_subscribers`) was started. -/
structure SetResult (α : Type) where
  notifier : StateNotifier α
  invoked : List String
  runtimeError : Bool
  fired : Bool

/-- `StateNotifier.set_state`: value-equality guard (`new_state == self._state`
returns immediately), otherwise store the new value and notify. -/
def setState {α : Type} [DecidableEq α] (n : StateNotifier α) (v : α) : SetResult α :=
  if v = n.state then ⟨n, [], false, false⟩
  else
    let p := notifySubscribers { state := v, subscribers := n.subscribers }
    ⟨p.notifier, p.invoked, p.runtimeError, true⟩

/-- Fold a sequence of external `set_state` calls, counting the notification
rounds that were started. -/
def runSets {α : Type} [DecidableEq α] : StateNotifier α → List α → StateNotifier α × Nat
  | n, [] => (n, 0)
  | n, v :: rest =>
      let r := setState n v
      ((runSets r.notifier rest).1, (if r.fired then 1 else 0) + (runSets r.notifier rest).2)

/-- Number of calls in a `set_state` sequence whose argument differs from the
value the notifier holds at call time (the property stated in spec section 8). -/
def countChanges {α : Type} [DecidableEq α] : α → List α → Nat
  | _, [] => 0
  | cur, v :: rest => if v = cur then countChanges cur rest else 1 + countChanges v rest

/-- `ComponentState` of src/scorpiui/core/state.py: a `StateNotifier` plus the
component/channel id used as routing key for outbound push messages. -/
structure ComponentState (α : Type) where
  component_id : String
  notifier : StateNotifier α

/-- The `{'component_id': ..., 'state': ...}` payload of the `state_change`
websocket emission. -/
structure StateChangeMsg (α : Type) where
  component_id : String
  state : α
deriving DecidableEq

/-- Ordered trace events of one `ComponentState.set_state` call: local callback
invocations followed by the transport emission, in execution order. -/
inductive CsEv (α : Type) where
  | cb (sid : String)
  | sent (m : StateChangeMsg α)
deriving DecidableEq

/-- Result of one `ComponentState.set_state` call.  `runtimeError` again marks
a `RuntimeError` escaping from the local notification pass (in which case the
emission in the overridden `_notify_subscribers` is never reached). -/
structure CSetResult (α : Type) where
  comp : ComponentState α
  invoked : List String
  runtimeError : Bool
  outbound : List (StateChangeMsg α)
  trace : List (CsEv α)
  fired : Bool

/-- `ComponentState.set_state` (inherited) with the overridden
`_notify_subscribers`: equality guard, store, local subscriber pass via
`super()._notify_subscribers()`, then `emit('state_change', ...)` inside
`try/except` — a transport failure (`emitOk = false`) is caught and logged, so
the call still returns and the local notifications are unaffected. -/
def csSetState {α : Type} [DecidableEq α] (c : ComponentState α) (v : α)
    (emitOk : Bool) : CSetResult α :=
  if v = c.notifier.state then ⟨c, [], false, [], [], false⟩
  else
    let p := notifySubscribers { state := v, subscribers := c.notifier.subscribers }
    if p.runtimeError then
      ⟨⟨c.component_id, p.notifier⟩, p.invoked, true, [], p.invoked.map CsEv.cb, true⟩
    else
      let out := if emitOk then [StateChangeMsg.mk c.component_id v] else []
      ⟨⟨c.component_id, p.notifier⟩, p.invoked, false, out,
        p.invoked.map CsEv.cb ++ out.map CsEv.sent, true⟩

/-- The `GlobalState` registry: a keyed map of `StateNotifier` instances. -/
abbrev GlobalStateReg (α : Type) := List (String × StateNotifier α)

/-- `GlobalState.register_state`: raises `KeyError` for a duplicate key,
otherwise stores and returns a fresh notifier. -/
def registerState {α : Type} (g : GlobalStateReg α) (key : String) (initial : α) :
    Except String (GlobalStateReg α × StateNotifier α) :=
  if (alookup g key).isSome then
    .error ("State with key already exists: " ++ key)
  else
    .ok (g ++ [(key, ⟨initial, []⟩)], ⟨initial, []⟩)

/-- `GlobalState.get_state`: raises `KeyError` for a missing key. -/
def getState {α : Type} (g : GlobalStateReg α) (key : String) :
    Except String (StateNotifier α) :=
  match alookup g key with
  | some n => .ok n
  | none => .error ("No state found with key: " ++ key)

/-- `GlobalState.remove_state`: `if key in self._states: del self._states[key]`
— deletion when present, a silent normal return when absent (no raise in
either branch). -/
def removeState {α : Type} (g : GlobalStateReg α) (key : String) :
    Except String (GlobalStateReg α) :=
  if (alookup g key).isSome then
    .ok (g.filter (fun p => decide (p.1 ≠ key)))
  else
    .ok g

/-- Replacing the value at an existing key makes lookup return the new value. -/
theorem alookup_map_replace {β : Type} (l : List (String × β)) (k : String) (v : β)
    (h : (alookup l k).isSome) :
    alookup (l.map (fun p => if p.1 = k then (k, v) else p)) k = some v := by
  induction l with
  | nil => simp [alookup] at h
  | cons p rest ih =>
    rw [List.map_cons]
    by_cases hk : p.1 = k
    · rw [if_pos hk]
      simp [alookup]
    · rw [if_neg hk]
      have hrest : (alookup rest k).isSome := by
        simpa [alookup, hk] using h
      simpa [alookup, hk] using ih hrest

/-- Appending a binding for an absent key makes lookup return the new value. -/
theorem alookup_append_absent {β : Type} (l : List (String × β)) (k : String) (v : β)
    (h : alookup l k = none) :
    alookup (l ++ [(k, v)]) k = some v := by
  induction l with
  | nil => simp [alookup]
  | cons p rest ih =>
    by_cases hk : p.1 = k
    · simp [alookup, hk] at h
    · have hrest : alookup rest k = none := by
        simpa [alookup, hk] using h
      simpa [alookup, hk] using ih hrest

/-- Looking up the key just written by `dictSet` yields the written value. -/
theorem alookup_dictSet_self {β : Type} (l : List (String × β)) (k : String) (v : β) :
    alookup (dictSet l k v) k = some v := by
  unfold dictSet
  by_cases h : (alookup l k).isSome
  · rw [if_pos h]
    exact alookup_map_replace l k v h
  · rw [if_neg h]
    exact alookup_append_absent l k v (by
      cases hl : alookup l k with
      | none => rfl
      | some w => rw [hl] at h; simp at h)

/-- A key absent from an association list heads no entry of it. -/
theorem alookup_eq_none_forall {β : Type} {l : List (String × β)} {k : String}
    (h : alookup l k = none) : ∀ p ∈ l, p.1 ≠ k := by
  induction l with
  | nil => intro p hp; cases hp
  | cons q rest ih =>
    intro p hp
    by_cases hq : q.1 = k
    · simp [alookup, hq] at h
    · rcases List.mem_cons.mp hp with rfl | hp
      · exact hq
      · exact ih (by simpa [alookup, hq] using h) p hp

/-- Deleting a key by filtering removes it from lookup. -/
theorem alookup_filter_self {β : Type} (l : List (String × β)) (k : String) :
    alookup (l.filter (fun p => decide (p.1 ≠ k))) k = none := by
  induction l with
  | nil => simp [alookup]
  | cons p rest ih =>
    by_cases hk : p.1 = k
    · simpa [List.filter_cons, hk] using ih
    · simpa [List.filter_cons, hk, alookup] using ih

/-- Deleting one key by filtering leaves every other lookup unchanged. -/
theorem alookup_filter_other {β : Type} (l : List (String × β)) (k k2 : String)
    (hne : k2 ≠ k) :
    alookup (l.filter (fun p => decide (p.1 ≠ k))) k2 = alookup l k2 := by
  induction l with
  | nil => simp
  | cons p rest ih =>
    by_cases hk : p.1 = k
    · have hp2 : ¬ p.1 = k2 := by
        rw [hk]; exact fun h2 => hne h2.symm
      rw [List.filter_cons_of_neg (by simpa using hk)]
      rw [ih]
      simp [alookup, hp2]
    · rw [List.filter_cons_of_pos (by simpa using hk)]
      by_cases hp2 : p.1 = k2
      · simp [alookup, hp2]
      · simpa [alookup, hp2] using ih

/-- A callback effect never changes the stored value (callbacks act on the
subscriber registry only; re-entrant `set_state` is outside the model, as the
spec leaves it undefined). -/
theorem execCb_state {α : Type} (n : StateNotifier α) (act : CbAct) :
    (execCb n act).state = n.state := by
  cases act with
  | noop => rfl
  | unsub sid =>
    show (unsubscribe n sid).state = n.state
    unfold unsubscribe
    split <;> rfl

/-- A notification pass never changes the stored value. -/
theorem notifyLoop_state {α : Type} (orig : List (String × CbAct))
    (n : StateNotifier α) (startSize : Nat) :
    (notifyLoop orig n startSize).notifier.state = n.state := by
  induction orig generalizing n with
  | nil => rfl
  | cons p rest ih =>
    obtain ⟨sid, act⟩ := p
    unfold notifyLoop
    split
    · exact (ih (execCb n act)).trans (execCb_state n act)
    · rfl

/-- When no callback in the pass mutates the subscriber dict, the pass invokes
exactly the entries present at pass start, in order, without an error. -/
theorem notifyLoop_noop {α : Type} (orig : List (String × CbAct))
    (n : StateNotifier α) (startSize : Nat)
    (hnoop : ∀ p ∈ orig, p.2 = CbAct.noop)
    (hsz : n.subscribers.length = startSize) :
    notifyLoop orig n startSize = ⟨n, orig.map Prod.fst, false⟩ := by
  induction orig generalizing n with
  | nil => simp [notifyLoop, hsz]
  | cons p rest ih =>
    obtain ⟨sid, act⟩ := p
    have hact : act = CbAct.noop := hnoop (sid, act) (List.mem_cons_self _ _)
    subst hact
    have hrest : ∀ q ∈ rest, q.2 = CbAct.noop := fun q hq => hnoop q (List.mem_cons_of_mem _ hq)
    unfold notifyLoop
    rw [if_pos hsz]
    simp [execCb, ih n hrest hsz]

/-- Every id invoked during a pass heads an entry of the pass-start sequence. -/
theorem notifyLoop_invoked_subset {α : Type} (orig : List (String × CbAct))
    (n : StateNotifier α) (startSize : Nat) :
    (notifyLoop orig n startSize).invoked ⊆ orig.map Prod.fst := by
  induction orig generalizing n with
  | nil => simp [notifyLoop]
  | cons p rest ih =>
    obtain ⟨sid, act⟩ := p
    unfold notifyLoop
    split
    · intro x hx
      rcases List.mem_cons.mp hx with rfl | hx
      · exact List.mem_cons_self _ _
      · exact List.mem_cons_of_mem _ (ih (execCb n act) hx)
    · intro x hx
      cases hx

/-- Setting a different value starts a round and stores the value. -/
theorem setState_of_ne {α : Type} [DecidableEq α] (n : StateNotifier α) (v : α)
    (h : ¬ v = n.state) :
    (setState n v).fired = true ∧ (setState n v).notifier.state = v := by
  unfold setState
  rw [if_neg h]
  exact ⟨rfl, notifyLoop_state _ _ _⟩

/-- C1: setting a value equal (by value equality) to the current one returns
without storing or notifying anyone, and over any sequence of `set_state`
calls the number of notification rounds started equals the number of calls
whose argument differs from the value held at call time. -/
theorem C1_equal_set_noop_and_notification_count {α : Type} [DecidableEq α]
    (n : StateNotifier α) (v : α) (vs : List α) :
    (v = n.state → setState n v = ⟨n, [], false, false⟩) ∧
    (runSets n vs).2 = countChanges n.state vs := by
  constructor
  · intro h
    unfold setState
    rw [if_pos h]
  · induction vs generalizing n with
    | nil => rfl
    | cons w rest ih =>
      by_cases hw : w = n.state
      · simp [runSets, setState, hw, countChanges, ih]
      · have hf := setState_of_ne n w hw
        simp only [runSets, countChanges, if_neg hw]
        rw [hf.1, if_pos rfl, ih ((setState n w).notifier), hf.2]

/-- Witness for C1 at a concrete notifier and call sequence. -/
theorem C1_witness :
    setState (StateNotifier.mk (0 : Int) []) 0 = ⟨⟨0, []⟩, [], false, false⟩ ∧
    (runSets (StateNotifier.mk (0 : Int) []) [1, 1, 2]).2 = 2 :=
  ⟨(C1_equal_set_noop_and_notification_count ⟨0, []⟩ 0 [1, 1, 2]).1 rfl,
   (C1_equal_set_noop_and_notification_count ⟨0, []⟩ 0 [1, 1, 2]).2.trans (by decide)⟩

/-- C2 counterexample: with subscribers `a` (whose callback unsubscribes `b`)
and `b`, a `set_state` pass invokes only `a` and the live-dict iteration
raises `RuntimeError`, contradicting snapshot semantics that would notify both
`a` and `b` without error. -/
theorem C2_counterexample :
    (setState (StateNotifier.mk (0 : Int)
        [("a", CbAct.unsub "b"), ("b", CbAct.noop)]) 1).invoked = ["a"] ∧
    (setState (StateNotifier.mk (0 : Int)
        [("a", CbAct.unsub "b"), ("b", CbAct.noop)]) 1).runtimeError = true ∧
    ¬ ((setState (StateNotifier.mk (0 : Int)
          [("a", CbAct.unsub "b"), ("b", CbAct.noop)]) 1).invoked = ["a", "b"] ∧
       (setState (StateNotifier.mk (0 : Int)
          [("a", CbAct.unsub "b"), ("b", CbAct.noop)]) 1).runtimeError = false) := by
  refine ⟨rfl, rfl, ?_⟩
  intro h
  exact absurd h.2 (by decide)

/-- C2 amended: a subscriber whose unsubscribe completed before the pass began
is never invoked in that pass; and when no callback mutates the subscriber
list during the pass, every subscriber registered at pass start is notified
exactly once, in registration order, with no error.  The pass iterates the
live dict, not a snapshot: a mid-pass unsubscribe of a registered subscriber
raises `RuntimeError` out of `set_state` and aborts the rest of the pass. -/
theorem C2_amended {α : Type} [DecidableEq α] (n : StateNotifier α)
    (sid : String) (v w : α) :
    sid ∉ (setState (unsubscribe n sid) w).invoked ∧
    ((∀ p ∈ n.subscribers, p.2 = CbAct.noop) → v ≠ n.state →
      (setState n v).invoked = n.subscribers.map Prod.fst ∧
      (setState n v).runtimeError = false) := by
  constructor
  · have hkeys : ∀ p ∈ (unsubscribe n sid).subscribers, p.1 ≠ sid := by
      unfold unsubscribe
      split
      · intro p hp
        have hmem := List.mem_filter.mp hp
        simpa using of_decide_eq_true hmem.2
      · next h =>
        have hnone : alookup n.subscribers sid = none := by
          cases hl : alookup n.subscribers sid with
          | none => rfl
          | some w2 => rw [hl] at h; simp at h
        exact alookup_eq_none_forall hnone
    by_cases hw : w = (unsubscribe n sid).state
    · unfold setState
      rw [if_pos hw]
      simp
    · unfold setState
      rw [if_neg hw]
      intro hmem
      have hsub := notifyLoop_invoked_subset (unsubscribe n sid).subscribers
        ⟨w, (unsubscribe n sid).subscribers⟩ (unsubscribe n sid).subscribers.length hmem
      obtain ⟨p, hp, hps⟩ := List.mem_map.mp hsub
      exact hkeys p hp hps
  · intro hnoop hv
    have hpass := notifyLoop_noop n.subscribers ⟨v, n.subscribers⟩
      n.subscribers.length hnoop rfl
    unfold setState
    rw [if_neg hv]
    refine ⟨?_, ?_⟩ <;> simp [notifySubscribers, hpass]

/-- Witness for C2 amended at a concrete notifier. -/
theorem C2_witness :
    "a" ∉ (setState (unsubscribe (StateNotifier.mk (0 : Int) [("a", CbAct.noop)]) "a") 2).invoked ∧
    ((setState (StateNotifier.mk (0 : Int) [("a", CbAct.noop)]) 1).invoked = ["a"] ∧
     (setState (StateNotifier.mk (0 : Int) [("a", CbAct.noop)]) 1).runtimeError = false) := by
  refine ⟨(C2_amended (StateNotifier.mk (0 : Int) [("a", CbAct.noop)]) "a" 1 2).1, ?_⟩
  have h := (C2_amended (StateNotifier.mk (0 : Int) [("a", CbAct.noop)]) "a" 1 2).2
    (by decide) (by decide)
  simpa using h

/-- C3 counterexample: normalizing the non-mapping raw value `5` leaves `meta`
at the dataclass default `None`, not the empty mapping `{}` that the claim
asserts for it. -/
theorem C3_counterexample :
    (EventData.fromDict (Json.num 5)).meta ≠ Json.obj [] := by
  intro h
  exact Json.noConfusion h

/-- C3 amended: `normalize({})` yields value `None`, type `"change"`, meta `{}`;
`normalize(5)` yields value `5`, type `"change"`, but meta `None` (the
dataclass default), not `{}`; `normalize({"value": "x", "type": "click"})`
yields value `"x"` and type `"click"`; and normalization is total on mappings
with missing or extra fields. -/
theorem C3_amended :
    EventData.fromDict (Json.obj []) =
      { value := .null, event_type := .str "change", target_id := .null,
        key := .null, meta := .obj [] } ∧
    EventData.fromDict (Json.num 5) =
      { value := .num 5, event_type := .str "change", target_id := .null,
        key := .null, meta := .null } ∧
    EventData.fromDict (Json.obj [("value", .str "x"), ("type", .str "click")]) =
      { value := .str "x", event_type := .str "click", target_id := .null,
        key := .null, meta := .obj [] } ∧
    ∀ fields : List (String × Json), ∃ e : EventData,
      EventData.fromDict (Json.obj fields) = e :=
  ⟨rfl, rfl, rfl, fun _ => ⟨_, rfl⟩⟩

/-- Dispatch of a well-formed inbound message whose handler completes. -/
theorem handleComponentEvent_ok (r : Registry) (a : String) (h : Handler)
    (payload : Json) (resp : Json) (ha : a ≠ "")
    (hl : alookup r a = some h)
    (hrun : h.run (normalizeDispatchData a payload) = .ok resp) :
    handleComponentEvent r (mkInbound a payload) =
      ([Msg.eventResponse a resp], [(h.tag, normalizeDispatchData a payload)]) := by
  unfold handleComponentEvent mkInbound
  simp [alookup, Json.falsy, ha, hl, hrun]

/-- Dispatch of a well-formed inbound message whose handler raises. -/
theorem handleComponentEvent_err (r : Registry) (a : String) (h : Handler)
    (payload : Json) (m : String) (ha : a ≠ "")
    (hl : alookup r a = some h)
    (hrun : h.run (normalizeDispatchData a payload) = .error m) :
    handleComponentEvent r (mkInbound a payload) =
      ([Msg.error m], [(h.tag, normalizeDispatchData a payload)]) := by
  unfold handleComponentEvent mkInbound
  simp [alookup, Json.falsy, ha, hl, hrun]

/-- A well-formed inbound message passes the socket-layer validation. -/
theorem handleSocketEvent_mkInbound (r : Registry) (a : String) (payload : Json) :
    handleSocketEvent r (mkInbound a payload) = handleComponentEvent r (mkInbound a payload) := by
  unfold handleSocketEvent mkInbound
  simp [alookup]

/-- Dispatch emits at most one outbound message per inbound message. -/
theorem handleComponentEvent_len (r : Registry) (d : Json) :
    (handleComponentEvent r d).1.length ≤ 1 := by
  cases d with
  | obj fields =>
      unfold handleComponentEvent
      dsimp only
      split
      · simp
      · split
        · split
          · simp
          · split <;> simp
        · simp
  | null => simp [handleComponentEvent]
  | bool b => simp [handleComponentEvent]
  | num n => simp [handleComponentEvent]
  | str s => simp [handleComponentEvent]
  | arr elems => simp [handleComponentEvent]

/-- C4: registering H1 then H2 under the same event id leaves exactly H2 as
the handler for that id, and a subsequent dispatch of that id invokes H2
(logging exactly one invocation, by H2) and never invokes H1. -/
theorem C4_last_writer_wins (r : Registry) (a : String) (h1 h2 : Handler)
    (payload : Json) (ha : a ≠ "") (hne : h1.tag ≠ h2.tag) :
    alookup (registerEvent (registerEvent r a h1) a h2) a = some h2 ∧
    (∃ ev, (handleComponentEvent (registerEvent (registerEvent r a h1) a h2)
        (mkInbound a payload)).2 = [(h2.tag, ev)]) ∧
    ∀ p ∈ (handleComponentEvent (registerEvent (registerEvent r a h1) a h2)
        (mkInbound a payload)).2, p.1 ≠ h1.tag := by
  have hlk : alookup (registerEvent (registerEvent r a h1) a h2) a = some h2 :=
    alookup_dictSet_self _ a h2
  refine ⟨hlk, ?_, ?_⟩
  · cases hrun : h2.run (normalizeDispatchData a payload) with
    | ok resp =>
      exact ⟨_, by rw [handleComponentEvent_ok _ a h2 payload resp ha hlk hrun]⟩
    | error m =>
      exact ⟨_, by rw [handleComponentEvent_err _ a h2 payload m ha hlk hrun]⟩
  · intro p hp
    cases hrun : h2.run (normalizeDispatchData a payload) with
    | ok resp =>
      rw [handleComponentEvent_ok _ a h2 payload resp ha hlk hrun] at hp
      obtain rfl := List.mem_singleton.mp hp
      exact fun hh => hne hh.symm
    | error m =>
      rw [handleComponentEvent_err _ a h2 payload m ha hlk hrun] at hp
      obtain rfl := List.mem_singleton.mp hp
      exact fun hh => hne hh.symm

/-- Witness for C4 with two concrete handlers under the same id. -/
theorem C4_witness :
    alookup (registerEvent (registerEvent [] "a" ⟨1, fun _ => .ok .null⟩)
      "a" ⟨2, fun _ => .ok (.num 7)⟩) "a" = some ⟨2, fun _ => .ok (.num 7)⟩ ∧
    (∃ ev, (handleComponentEvent (registerEvent (registerEvent [] "a" ⟨1, fun _ => .ok .null⟩)
        "a" ⟨2, fun _ => .ok (.num 7)⟩) (mkInbound "a" (Json.obj []))).2 = [(2, ev)]) ∧
    ∀ p ∈ (handleComponentEvent (registerEvent (registerEvent [] "a" ⟨1, fun _ => .ok .null⟩)
        "a" ⟨2, fun _ => .ok (.num 7)⟩) (mkInbound "a" (Json.obj []))).2, p.1 ≠ 1 :=
  C4_last_writer_wins [] "a" ⟨1, fun _ => .ok .null⟩ ⟨2, fun _ => .ok (.num 7)⟩
    (Json.obj []) (by decide) (by decide)

/-- C5: a handler that raises during dispatch yields exactly one outbound
error message, no event_response, the exception is not propagated, and
processing any further inbound messages is exactly as if the failure had not
happened (the handler registry is not touched by dispatch). -/
theorem C5_handler_exception_isolated (r : Registry) (a : String) (h : Handler)
    (payload : Json) (rest : List Json) (ha : a ≠ "")
    (hl : alookup r a = some h)
    (hfail : ∀ ev, ∃ m, h.run ev = Except.error m) :
    ∃ m, (handleComponentEvent r (mkInbound a payload)).1 = [Msg.error m] ∧
      (∀ eid resp, Msg.eventResponse eid resp ∉ (handleComponentEvent r (mkInbound a payload)).1) ∧
      processInbound r (mkInbound a payload :: rest) = Msg.error m :: processInbound r rest := by
  obtain ⟨m, hm⟩ := hfail (normalizeDispatchData a payload)
  have he := handleComponentEvent_err r a h payload m ha hl hm
  refine ⟨m, by rw [he], ?_, ?_⟩
  · intro eid resp hmem
    rw [he] at hmem
    exact Msg.noConfusion (List.mem_singleton.mp hmem)
  · show (handleSocketEvent r (mkInbound a payload)).1 ++ processInbound r rest = _
    rw [handleSocketEvent_mkInbound, he]
    rfl

/-- Witness for C5 with a concrete raising handler. -/
theorem C5_witness :
    ∃ m, (handleComponentEvent [("a", ⟨7, fun _ => .error "boom"⟩)]
        (mkInbound "a" (Json.obj []))).1 = [Msg.error m] ∧
      (∀ eid resp, Msg.eventResponse eid resp ∉
        (handleComponentEvent [("a", ⟨7, fun _ => .error "boom"⟩)]
          (mkInbound "a" (Json.obj []))).1) ∧
      processInbound [("a", ⟨7, fun _ => .error "boom"⟩)]
          (mkInbound "a" (Json.obj []) :: []) =
        Msg.error m :: processInbound [("a", ⟨7, fun _ => .error "boom"⟩)] [] :=
  C5_handler_exception_isolated [("a", ⟨7, fun _ => .error "boom"⟩)] "a"
    ⟨7, fun _ => .error "boom"⟩ (Json.obj []) [] (by decide) rfl
    (fun _ => ⟨"boom", rfl⟩)

/-- C6: dispatching an event id with no registered handler returns normally
and emits no outbound message of any kind. -/
theorem C6_unregistered_no_outbound (r : Registry) (a : String) (payload : Json)
    (hl : alookup r a = none) :
    handleComponentEvent r (mkInbound a payload) = ([], []) := by
  by_cases ha : a = ""
  · subst ha
    unfold handleComponentEvent mkInbound
    simp [alookup, Json.falsy]
  · unfold handleComponentEvent mkInbound
    simp [alookup, Json.falsy, ha, hl]

/-- Witness for C6 on the empty registry. -/
theorem C6_witness :
    handleComponentEvent ([] : Registry) (mkInbound "nope" Json.null) = ([], []) :=
  C6_unregistered_no_outbound [] "nope" Json.null rfl

/-- C7 counterexample: an inbound message whose event id has no registered
handler produces zero outbound messages, not exactly one. -/
theorem C7_counterexample :
    (handleSocketEvent ([] : Registry) (Json.obj [("event_id", Json.str "nope")])).1 = [] := rfl

/-- C7 amended: processing one inbound message emits at most one outbound
message — exactly one event_response on completion, exactly one error on a
structural failure or a handler exception, and zero messages when the event
id is falsy or no handler is registered for it. -/
theorem C7_at_most_one_outbound (r : Registry) (data : Json) :
    (handleSocketEvent r data).1.length ≤ 1 := by
  cases data with
  | obj fields =>
      unfold handleSocketEvent
      dsimp only
      split
      · exact handleComponentEvent_len r _
      · simp
  | null => simp [handleSocketEvent]
  | bool b => simp [handleSocketEvent]
  | num n => simp [handleSocketEvent]
  | str s => simp [handleSocketEvent]
  | arr elems => simp [handleSocketEvent]

/-- C10: when the inbound `data` field is a mapping, dispatch overwrites its
`target_id` entry with the full event id before normalization, so the handler
receives a payload whose `target_id` equals the event id, whatever `target_id`
the client supplied. -/
theorem C10_target_id_overwritten (r : Registry) (a : String) (h : Handler)
    (dfields : List (String × Json)) (ha : a ≠ "") (hl : alookup r a = some h) :
    ∃ ev, (handleComponentEvent r (mkInbound a (Json.obj dfields))).2 = [(h.tag, ev)] ∧
      ev.target_id = Json.str a := by
  have htid : (normalizeDispatchData a (Json.obj dfields)).target_id = Json.str a := by
    unfold normalizeDispatchData EventData.fromDict
    simp [alookup_dictSet_self]
  cases hrun : h.run (normalizeDispatchData a (Json.obj dfields)) with
  | ok resp =>
    exact ⟨_, by rw [handleComponentEvent_ok r a h _ resp ha hl hrun], htid⟩
  | error m =>
    exact ⟨_, by rw [handleComponentEvent_err r a h _ m ha hl hrun], htid⟩

/-- Witness for C10: the client-supplied target_id is discarded. -/
theorem C10_witness :
    ∃ ev, (handleComponentEvent [("btn_click", ⟨3, fun _ => .ok .null⟩)]
        (mkInbound "btn_click" (Json.obj [("target_id", Json.str "client")]))).2
      = [(3, ev)] ∧ ev.target_id = Json.str "btn_click" :=
  C10_target_id_overwritten [("btn_click", ⟨3, fun _ => .ok .null⟩)] "btn_click"
    ⟨3, fun _ => .ok .null⟩ [("target_id", Json.str "client")] (by decide) rfl

/-- C8 counterexample: removing a key absent from the registry returns
normally (a silent no-op), instead of failing with a missing-key error as the
claim asserts. -/
theorem C8_counterexample :
    removeState ([] : GlobalStateReg Int) "x" = Except.ok [] := rfl

/-- C8 amended: `remove_state` never raises; on an absent key it is a silent
no-op, and on a present key it deletes exactly that entry, leaving every
other key bound as before. -/
theorem C8_amended {α : Type} (g : GlobalStateReg α) (key : String) :
    (∃ g2, removeState g key = Except.ok g2) ∧
    (alookup g key = none → removeState g key = Except.ok g) ∧
    ((alookup g key).isSome →
      ∀ g2, removeState g key = Except.ok g2 →
        alookup g2 key = none ∧ ∀ k2, k2 ≠ key → alookup g2 k2 = alookup g k2) := by
  refine ⟨?_, ?_, ?_⟩
  · unfold removeState
    split
    · exact ⟨_, rfl⟩
    · exact ⟨_, rfl⟩
  · intro hnone
    unfold removeState
    rw [if_neg (by rw [hnone]; simp)]
  · intro hsome g2 hg2
    unfold removeState at hg2
    rw [if_pos hsome] at hg2
    injection hg2 with hh
    subst hh
    exact ⟨alookup_filter_self g key, fun k2 hk2 => alookup_filter_other g key k2 hk2⟩

/-- Witness for C8 amended on concrete registries. -/
theorem C8_witness :
    removeState [("k", StateNotifier.mk (0 : Int) [])] "x"
      = Except.ok [("k", StateNotifier.mk (0 : Int) [])] ∧
    alookup ([] : GlobalStateReg Int) "k" = none := by
  constructor
  · exact (C8_amended [("k", StateNotifier.mk (0 : Int) [])] "x").2.1 rfl
  · exact ((C8_amended [("k", StateNotifier.mk (0 : Int) [])] "k").2.2 rfl [] rfl).1

/-- C9: a successful `ComponentState.set_state` notifies all local subscribers
first and then emits one `{component_id, state}` message; a transport failure
is caught (the call still returns) and neither prevents nor alters the local
notifications or the resulting component state. -/
theorem C9_transport_isolated {α : Type} [DecidableEq α] (c : ComponentState α)
    (v : α) (emitOk : Bool) (hne : ¬ v = c.notifier.state)
    (hnoop : ∀ p ∈ c.notifier.subscribers, p.2 = CbAct.noop) :
    (csSetState c v emitOk).invoked = c.notifier.subscribers.map Prod.fst ∧
    (csSetState c v emitOk).runtimeError = false ∧
    (csSetState c v true).outbound = [⟨c.component_id, v⟩] ∧
    (csSetState c v false).outbound = [] ∧
    (csSetState c v emitOk).comp = (csSetState c v true).comp ∧
    (csSetState c v emitOk).trace =
      ((csSetState c v emitOk).invoked.map CsEv.cb) ++
      ((csSetState c v emitOk).outbound.map CsEv.sent) := by
  have hpass := notifyLoop_noop c.notifier.subscribers ⟨v, c.notifier.subscribers⟩
    c.notifier.subscribers.length hnoop rfl
  have hns : notifySubscribers (⟨v, c.notifier.subscribers⟩ : StateNotifier α)
      = ⟨⟨v, c.notifier.subscribers⟩, c.notifier.subscribers.map Prod.fst, false⟩ := by
    unfold notifySubscribers
    exact hpass
  unfold csSetState
  simp only [if_neg hne, hns]
  simp

/-- Witness for C9 at a concrete component state. -/
theorem C9_witness :
    (csSetState (ComponentState.mk "counter" ⟨(0 : Int), [("s1", CbAct.noop)]⟩) 1 false).invoked
      = ["s1"] ∧
    (csSetState (ComponentState.mk "counter" ⟨(0 : Int), [("s1", CbAct.noop)]⟩) 1 false).runtimeError
      = false ∧
    (csSetState (ComponentState.mk "counter" ⟨(0 : Int), [("s1", CbAct.noop)]⟩) 1 true).outbound
      = [⟨"counter", 1⟩] ∧
    (csSetState (ComponentState.mk "counter" ⟨(0 : Int), [("s1", CbAct.noop)]⟩) 1 false).outbound
      = [] := by
  have h := C9_transport_isolated
    (ComponentState.mk "counter" ⟨(0 : Int), [("s1", CbAct.noop)]⟩) 1 false
    (by decide) (by decide)
  exact ⟨by simpa using h.1, h.2.1, h.2.2.1, h.2.2.2.1⟩

end Scorpi
